import Mathlib

/-
Verification of the midi-classification pipeline (src/midi_classifier.ipynb).

Shallow embedding conventions:
  * Real/float quantities of the source are modelled as rationals (ℚ).
  * The external pretty_midi codec is modelled as a function
    `String → Except DecodeError PrettyMIDIData`: it either returns the decoded
    structure (tempo, resolution, list of time-signature changes) or signals a
    decode-time anomaly (in the source: any exception or warning raised inside
    the `try` block of `get_features`).
  * A trained classifier is modelled by its per-example predict function,
    tagged as `dense` (one-hot-shaped output, the MLPClassifier case) or
    `scalar` (class-index output, the SVC case). Training in `train_model`
    is abstracted away: each candidate configuration is represented by the
    classifier obtained from a successful fit, which is the situation the
    claims quantify over.
-/

/-- Decode-time anomalies of the external codec. In the source any of these
surfaces as an exception (warnings are promoted to errors), caught by the
bare `except:` of `get_features`. -/
inductive DecodeError where
  | malformedHeader
  | truncatedStream
  | unsupportedChunk
  | codecWarning
deriving DecidableEq

/-- The decoded structure returned by `pretty_midi.PrettyMIDI(path)` together
with the derived quantities read by `get_features`: `tempo` models
`file.estimate_tempo()`, `resolution` models `file.resolution`, and
`time_signature_changes` models `file.time_signature_changes` as a list of
(numerator, denominator) pairs. -/
structure PrettyMIDIData where
  tempo : ℚ
  resolution : ℚ
  time_signature_changes : List (ℚ × ℚ)

/-- The external decoder collaborator: path to decoded data or decode error. -/
abbrev Codec := String → Except DecodeError PrettyMIDIData

/-- Source `normalize_features(features)`: reads the five raw signals
features[0] .. features[4], normalizes each, and returns only four of them —
the normalized count of signature changes (features[1]) is computed and then
dropped from the returned list. The source indexes a five-element list; the
catch-all branch is unreachable at every call site of the source. -/
def normalize_features (features : List ℚ) : List ℚ :=
  match features with
  | tempo0 :: sig0 :: res0 :: ts10 :: ts20 :: _ =>
    let tempo := (tempo0 - 150) / 300
    let _num_sig_changes := (sig0 - 2) / 10
    let resolution := (res0 - 260) / 400
    let time_sig_1 := (ts10 - 3) / 8
    let time_sig_2 := (ts20 - 3) / 8
    [tempo, resolution, time_sig_1, time_sig_2]
  | _ => []

/-- The body of the `try` block of source `get_features(path)` after a
successful decode: read tempo, number of time-signature changes, resolution,
and the first time-signature change (default 4/4 when there is none), then
normalize. -/
def features_of_midi (file : PrettyMIDIData) : List ℚ :=
  let tempo := file.tempo
  let num_sig_changes : ℚ := (file.time_signature_changes.length : ℚ)
  let resolution := file.resolution
  let ts_changes := file.time_signature_changes
  let ts_pair :=
    match ts_changes with
    | [] => ((4 : ℚ), (4 : ℚ))
    | c :: _ => c
  normalize_features [tempo, num_sig_changes, resolution, ts_pair.1, ts_pair.2]

/-- Source `get_features(path)`: decode the file and extract features; the
bare `except:` turns every raised decode anomaly into the value `None`,
modelled by `none`. -/
def get_features (codec : Codec) (path : String) : Option (List ℚ) :=
  match codec path with
  | Except.ok file => some (features_of_midi file)
  | Except.error _ => none

/-- Source `extract_midi_features(path_df)`: iterate the (Path, Genre) rows in
order; on successful extraction append the genre index (via `label_dict`) to
the feature vector and push the labeled row; on a failed extraction
(`features is None`) skip the row. `label_dict` models the genre-to-index
dictionary built in step 2 of the source. -/
def extract_midi_features (codec : Codec) (label_dict : String → Nat)
    (path_df : List (String × String)) : List (List ℚ) :=
  path_df.foldl
    (fun all_features row =>
      match get_features codec row.1 with
      | some features => all_features ++ [features ++ [(label_dict row.2 : ℚ)]]
      | none => all_features)
    []

/-- Source step-5 partition cell applied to the (already shuffled) labeled
matrix: `num_training = int(num * 0.6)`, `num_validation = int(num * 0.8)`,
then the three slices `[:num_training]`, `[num_training:num_validation]`,
`[num_validation:]`. Truncating `int` on a nonnegative value is the floor,
modelled with `Nat.floor` over exact rationals. -/
def partition_dataset (labeled_features : List (List ℚ)) :
    List (List ℚ) × List (List ℚ) × List (List ℚ) :=
  let num := labeled_features.length
  let num_training := ⌊(num : ℚ) * 0.6⌋₊
  let num_validation := ⌊(num : ℚ) * 0.8⌋₊
  let training_data := labeled_features.take num_training
  let validation_data := (labeled_features.drop num_training).take (num_validation - num_training)
  let test_data := labeled_features.drop num_validation
  (training_data, validation_data, test_data)

/-- Row `label` of `np.eye(num_classes)`: the one-hot vector of a single class
index, with a 1 exactly at position `label`. -/
def eye_row (num_classes : Nat) (label : Nat) : List ℚ :=
  (List.range num_classes).map (fun j => if j = label then 1 else 0)

/-- Source `one_hot(labels)`: `np.eye(num_classes)[labels]`, one one-hot row
per label. -/
def one_hot (num_classes : Nat) (labels : List Nat) : List (List ℚ) :=
  labels.map (eye_row num_classes)

/-- A trained classifier, tagged by its output shape exactly as the source
distinguishes them with `type(clf) == SVC`: `dense` models the MLPClassifier
case (predict returns a one-hot-shaped vector per example) and `scalar`
models the SVC case (predict returns a class index per example). -/
inductive Clf where
  | dense (predict_one : List ℚ → List ℚ)
  | scalar (predict_one : List ℚ → Nat)

/-- The correct-count loop inside source `train_model`: for each validation
example, a dense classifier is correct when `np.array_equal(v_labels_hot[i],
predictions[i])` — elementwise equality with the one-hot row — and a scalar
classifier is correct when `v_labels[i] == predictions[i]`. -/
def score_count (num_classes : Nat) (clf : Clf)
    (v_features : List (List ℚ)) (v_labels : List Nat) : Nat :=
  (v_features.zip v_labels).countP
    (fun p =>
      match clf with
      | Clf.dense f => decide (f p.1 = eye_row num_classes p.2)
      | Clf.scalar f => decide (f p.1 = p.2))

/-- The accuracy computed for one candidate inside source `train_model`:
`accuracy = count / len(v_labels_hot)`. -/
def validation_accuracy (num_classes : Nat) (clf : Clf)
    (v_features : List (List ℚ)) (v_labels : List Nat) : ℚ :=
  (score_count num_classes clf v_features v_labels : ℚ) /
    ((one_hot num_classes v_labels).length : ℚ)

/-- One iteration of the best-model tracker of source `train_model`:
`if accuracy > best_accuracy: best_accuracy = accuracy; best_clf = clf`. -/
def select_step (accuracy_of : Clf → ℚ) (best : Option Clf × ℚ) (clf : Clf) :
    Option Clf × ℚ :=
  if best.2 < accuracy_of clf then (some clf, accuracy_of clf) else best

/-- Source `train_model`: starting from `best_clf = None, best_accuracy = 0`,
score every candidate on the validation set and keep the one whose accuracy is
strictly greater than the best seen so far. The source returns `best_clf` and
prints `best_accuracy`; the model returns the tracked pair. The training data
arguments are kept for the signature; fitting is abstracted into the
already-trained candidates. -/
def train_model (num_classes : Nat) (candidates : List Clf)
    (_t_features : List (List ℚ)) (_t_labels : List Nat)
    (v_features : List (List ℚ)) (v_labels : List Nat) : Option Clf × ℚ :=
  candidates.foldl
    (select_step (fun clf => validation_accuracy num_classes clf v_features v_labels))
    (none, 0)

/-- Source `calculate_accuracy(clf, t_features, t_labels)`: its own loop over
`range(len(t_features))` with the SVC branch checked first, divided by
`len(t_features)`. -/
def calculate_accuracy (num_classes : Nat) (clf : Clf)
    (t_features : List (List ℚ)) (t_labels : List Nat) : ℚ :=
  let count :=
    (t_features.zip t_labels).countP
      (fun p =>
        match clf with
        | Clf.scalar f => decide (f p.1 = p.2)
        | Clf.dense f => decide (f p.1 = eye_row num_classes p.2))
  (count : ℚ) / (t_features.length : ℚ)

/-- The exceptions that can escape source `make_prediction`, which has no
handler of its own: `decodeFailure` models the exception raised when the
classifier is applied to the `None` returned by a failed `get_features`;
`typeError` models `list(...)` applied to the scalar output of an SVC;
`malformedPrediction` models the ValueError of `.index(1)` when no entry
equals 1; `indexOutOfRange` models `label_list[i]` with `i` out of range. -/
inductive PredictionError where
  | decodeFailure
  | typeError
  | malformedPrediction
  | indexOutOfRange
deriving DecidableEq

/-- Python `list.index(1)`: the position of the first element equal to 1, or
failure when no element equals 1. -/
def index_of_one : List ℚ → Option Nat
  | [] => none
  | a :: rest => if a = 1 then some 0 else (index_of_one rest).map (· + 1)

/-- Source `make_prediction(clf, midi_path)`: extract features (an
undecodable file yields `None`, on which the subsequent predict call raises),
run the classifier, take `list(predictions[0]).index(1)` — the first 1-valued
position — and map it through `label_list`. -/
def make_prediction (clf : Clf) (label_list : List String)
    (codec : Codec) (midi_path : String) : Except PredictionError String :=
  match get_features codec midi_path with
  | none => Except.error PredictionError.decodeFailure
  | some features =>
    match clf with
    | Clf.scalar _ => Except.error PredictionError.typeError
    | Clf.dense f =>
      match index_of_one (f features) with
      | none => Except.error PredictionError.malformedPrediction
      | some prediction_ind =>
        match label_list.get? prediction_ind with
        | none => Except.error PredictionError.indexOutOfRange
        | some prediction => Except.ok prediction

/-- Concrete decoded file used by the closed witness statements: tempo 120,
resolution 220, first time-signature change 3/4. -/
def sample_midi : PrettyMIDIData := ⟨120, 220, [(3, 4), (6, 8)]⟩

/-- Concrete codec for witnesses: every path decodes to `sample_midi`, except
the path "bad.mid" which raises a decode error. -/
def sample_codec : Codec := fun path =>
  if path = "bad.mid" then Except.error DecodeError.truncatedStream
  else Except.ok sample_midi

/-- Concrete genre-to-index dictionary for witnesses. -/
def sample_label_dict : String → Nat := fun genre =>
  if genre = "Jazz" then 0 else if genre = "Rap" then 6 else 11

/-- Concrete scalar classifier that is wrong on the one-example validation set
`[[0]], [0]`, hence scores accuracy exactly 0. -/
def cex_clf : Clf := Clf.scalar (fun _ => 1)

/-- Concrete scalar classifier with accuracy 1/2 on `[[0], [1]], [0, 1]`. -/
def clf_half : Clf := Clf.scalar (fun _ => 0)

/-- Concrete scalar classifier with accuracy 1 on `[[0], [1]], [0, 1]`. -/
def clf_best : Clf := Clf.scalar (fun fs => if fs = [1] then 1 else 0)

/-- Another scalar classifier with accuracy 1 on `[[0], [1]], [0, 1]`,
syntactically different from `clf_best`, used to exhibit a tie. -/
def clf_tie : Clf := Clf.scalar (fun fs => if fs = [0] then 0 else 1)

/- Helper lemmas -/

/-- The accumulator-generalized description of the row loop of
`extract_midi_features`. -/
theorem extract_midi_features_foldl_eq (codec : Codec) (label_dict : String → Nat)
    (path_df : List (String × String)) (acc : List (List ℚ)) :
    path_df.foldl
      (fun all_features row =>
        match get_features codec row.1 with
        | some features => all_features ++ [features ++ [(label_dict row.2 : ℚ)]]
        | none => all_features)
      acc =
    acc ++ path_df.filterMap
      (fun row => (get_features codec row.1).map
        (fun features => features ++ [(label_dict row.2 : ℚ)])) := by
  induction path_df generalizing acc with
  | nil => simp
  | cons row rest ih =>
    cases h : get_features codec row.1 with
    | none => simp [h, ih]
    | some features => simp [h, ih]

/-- `select_step` promotes the candidate exactly when its accuracy strictly
beats the tracked one. -/
theorem select_step_of_lt (accuracy_of : Clf → ℚ) (best : Option Clf × ℚ)
    (clf : Clf) (h : best.2 < accuracy_of clf) :
    select_step accuracy_of best clf = (some clf, accuracy_of clf) := by
  rw [select_step, if_pos h]

/-- The denominator of `validation_accuracy` is the length of the label list. -/
theorem validation_accuracy_eq (num_classes : Nat) (clf : Clf)
    (v_features : List (List ℚ)) (v_labels : List Nat) :
    validation_accuracy num_classes clf v_features v_labels =
      (score_count num_classes clf v_features v_labels : ℚ) /
        (v_labels.length : ℚ) := by
  simp [validation_accuracy, one_hot]

/-- A fold of `select_step` never moves when no accuracy beats the tracked one. -/
theorem foldl_select_step_of_le (accuracy_of : Clf → ℚ) (l : List Clf)
    (best : Option Clf × ℚ) (h : ∀ x ∈ l, accuracy_of x ≤ best.2) :
    l.foldl (select_step accuracy_of) best = best := by
  induction l with
  | nil => rfl
  | cons a l ih =>
    have hstep : select_step accuracy_of best a = best := by
      unfold select_step
      rw [if_neg (not_lt.mpr (h a (by simp)))]
    rw [List.foldl_cons, hstep]
    exact ih (fun x hx => h x (by simp [hx]))

/-- A fold of `select_step` keeps the tracked accuracy below any strict upper
bound of the initial accuracy and of all scanned accuracies. -/
theorem foldl_select_step_lt (accuracy_of : Clf → ℚ) (l : List Clf)
    (best : Option Clf × ℚ) (q : ℚ) (hb : best.2 < q)
    (h : ∀ x ∈ l, accuracy_of x < q) :
    (l.foldl (select_step accuracy_of) best).2 < q := by
  induction l generalizing best with
  | nil => exact hb
  | cons a l ih =>
    rw [List.foldl_cons]
    refine ih (select_step accuracy_of best a) ?_ (fun x hx => h x (by simp [hx]))
    unfold select_step
    split
    · exact h a (by simp)
    · exact hb

/-- When `index_of_one` returns an index, that position holds a 1 and every
earlier position does not. -/
theorem index_of_one_spec (l : List ℚ) (i : Nat) (h : index_of_one l = some i) :
    l.get? i = some 1 ∧ ∀ j, j < i → l.get? j ≠ some 1 := by
  induction l generalizing i with
  | nil => simp [index_of_one] at h
  | cons a rest ih =>
    by_cases ha : a = 1
    · have : i = 0 := by simp [index_of_one, ha] at h; omega
      subst this
      exact ⟨by simp [ha], fun j hj => absurd hj (by omega)⟩
    · simp [index_of_one, ha] at h
      obtain ⟨i', hi', rfl⟩ := h
      obtain ⟨h1, h2⟩ := ih i' hi'
      refine ⟨by simpa using h1, ?_⟩
      intro j hj
      cases j with
      | zero => simpa using ha
      | succ j' =>
        have : j' < i' := by omega
        simpa using h2 j' this

/-- `index_of_one` fails exactly when no entry equals 1. -/
theorem index_of_one_eq_none (l : List ℚ) :
    index_of_one l = none ↔ (1 : ℚ) ∉ l := by
  induction l with
  | nil => simp [index_of_one]
  | cons a rest ih =>
    by_cases ha : a = 1
    · simp [index_of_one, ha]
    · simp only [index_of_one, if_neg ha, Option.map_eq_none', ih, List.mem_cons]
      constructor
      · intro h hmem
        rcases hmem with h1 | h1
        · exact ha h1.symm
        · exact h h1
      · intro h h1
        exact h (Or.inr h1)

/- Claim theorems -/

/-- C4: `partition_dataset` on a matrix of N rows produces slices of sizes
exactly floor(0.6 N), floor(0.8 N) - floor(0.6 N), and the remainder, summing
to N: the boundaries are cumulative offsets into the shuffled matrix. -/
theorem c4_partition_sizes (labeled_features : List (List ℚ)) :
    (partition_dataset labeled_features).1.length =
      ⌊(labeled_features.length : ℚ) * 0.6⌋₊ ∧
    (partition_dataset labeled_features).2.1.length =
      ⌊(labeled_features.length : ℚ) * 0.8⌋₊ - ⌊(labeled_features.length : ℚ) * 0.6⌋₊ ∧
    (partition_dataset labeled_features).1.length +
      (partition_dataset labeled_features).2.1.length +
      (partition_dataset labeled_features).2.2.length = labeled_features.length := by
  have hcast : (⌊(labeled_features.length : ℚ)⌋₊ : Nat) = labeled_features.length :=
    Nat.floor_natCast _
  have h6 : ⌊(labeled_features.length : ℚ) * 0.6⌋₊ ≤ labeled_features.length := by
    have : (labeled_features.length : ℚ) * 0.6 ≤ (labeled_features.length : ℚ) := by
      nlinarith [Nat.cast_nonneg (α := ℚ) labeled_features.length]
    calc ⌊(labeled_features.length : ℚ) * 0.6⌋₊ ≤ ⌊(labeled_features.length : ℚ)⌋₊ :=
          Nat.floor_mono this
      _ = labeled_features.length := hcast
  have h8 : ⌊(labeled_features.length : ℚ) * 0.8⌋₊ ≤ labeled_features.length := by
    have : (labeled_features.length : ℚ) * 0.8 ≤ (labeled_features.length : ℚ) := by
      nlinarith [Nat.cast_nonneg (α := ℚ) labeled_features.length]
    calc ⌊(labeled_features.length : ℚ) * 0.8⌋₊ ≤ ⌊(labeled_features.length : ℚ)⌋₊ :=
          Nat.floor_mono this
      _ = labeled_features.length := hcast
  have h68 : ⌊(labeled_features.length : ℚ) * 0.6⌋₊ ≤
      ⌊(labeled_features.length : ℚ) * 0.8⌋₊ := by
    apply Nat.floor_mono
    nlinarith [Nat.cast_nonneg (α := ℚ) labeled_features.length]
  refine ⟨?_, ?_, ?_⟩ <;>
    simp only [partition_dataset, List.length_take, List.length_drop] <;> omega

/-- C5: on a successful decode, the extracted feature vector has exactly 4
components — (tempo - 150)/300, (resolution - 260)/400, and the scaled
numerator and denominator of the first time-signature change (default 4/4
when there is none) — while the count-of-changes signal is read by
`normalize_features` and dropped from the output. -/
theorem c5_feature_vector (codec : Codec) (path : String) (file : PrettyMIDIData)
    (h : codec path = Except.ok file) :
    get_features codec path = some (features_of_midi file) ∧
    (features_of_midi file).length = 4 ∧
    features_of_midi file =
      [(file.tempo - 150) / 300, (file.resolution - 260) / 400,
       ((file.time_signature_changes.headD (4, 4)).1 - 3) / 8,
       ((file.time_signature_changes.headD (4, 4)).2 - 3) / 8] ∧
    (∀ t n₁ n₂ r s1 s2 : ℚ,
      normalize_features [t, n₁, r, s1, s2] = normalize_features [t, n₂, r, s1, s2] ∧
      normalize_features [t, n₁, r, s1, s2] =
        [(t - 150) / 300, (r - 260) / 400, (s1 - 3) / 8, (s2 - 3) / 8]) := by
  refine ⟨by simp [get_features, h], ?_, ?_, ?_⟩
  · cases hts : file.time_signature_changes <;>
      simp [features_of_midi, normalize_features, hts]
  · cases hts : file.time_signature_changes <;>
      simp [features_of_midi, normalize_features, hts]
  · intro t n₁ n₂ r s1 s2
    exact ⟨rfl, rfl⟩

/-- C9: `get_features` is total over decode behaviors: it returns `none`
exactly when the codec signals any decode anomaly, and on a successful decode
it returns the computed feature vector; no anomaly escapes or is ignored. -/
theorem c9_get_features_total (codec : Codec) (path : String) :
    (get_features codec path = none ↔ ∃ e, codec path = Except.error e) ∧
    (∀ file, codec path = Except.ok file →
      get_features codec path = some (features_of_midi file)) ∧
    (∀ e, codec path = Except.error e → get_features codec path = none) := by
  cases h : codec path with
  | ok file => simp [get_features, h]
  | error e => simp [get_features, h]

/-- C8: when feature extraction fails, `make_prediction` surfaces the failure
as an error to the caller, and the genre-returning success path is
unreachable. -/
theorem c8_decode_failure_surfaced (clf : Clf) (label_list : List String)
    (codec : Codec) (path : String) (h : get_features codec path = none) :
    make_prediction clf label_list codec path =
      Except.error PredictionError.decodeFailure ∧
    ∀ genre, make_prediction clf label_list codec path ≠ Except.ok genre := by
  refine ⟨by simp [make_prediction, h], ?_⟩
  intro genre
  simp [make_prediction, h]

/-- C6: `extract_midi_features` omits every row whose extraction fails — no
placeholder, no error record — and outputs the successful rows in input
order; in particular a 3-row input whose middle row fails yields the 2
remaining labeled rows in order. -/
theorem c6_build_drops_failures (codec : Codec) (label_dict : String → Nat) :
    (∀ path_df : List (String × String),
      extract_midi_features codec label_dict path_df =
        path_df.filterMap
          (fun row => (get_features codec row.1).map
            (fun features => features ++ [(label_dict row.2 : ℚ)]))) ∧
    (∀ p1 g1 p2 g2 p3 g3 v1 v3,
      get_features codec p1 = some v1 →
      get_features codec p2 = none →
      get_features codec p3 = some v3 →
      extract_midi_features codec label_dict [(p1, g1), (p2, g2), (p3, g3)] =
        [v1 ++ [(label_dict g1 : ℚ)], v3 ++ [(label_dict g3 : ℚ)]]) := by
  constructor
  · intro path_df
    simpa [extract_midi_features] using
      extract_midi_features_foldl_eq codec label_dict path_df []
  · intro p1 g1 p2 g2 p3 g3 v1 v3 h1 h2 h3
    simp [extract_midi_features, h1, h2, h3]

/-- C7: `calculate_accuracy` computes exactly the accuracy that the
validation-scoring loop of `train_model` computes for the same classifier on
the same equally-sized (features, labels) set: identical exact-match rule,
identical denominator. -/
theorem c7_accuracy_agreement (num_classes : Nat) (clf : Clf)
    (features : List (List ℚ)) (labels : List Nat)
    (h : features.length = labels.length) :
    calculate_accuracy num_classes clf features labels =
      validation_accuracy num_classes clf features labels := by
  unfold calculate_accuracy validation_accuracy score_count one_hot
  cases clf <;> simp [List.length_map, h]

/-- C1: in the dense branch of the validation scoring of `train_model`, an
example contributes to the correct count exactly when the predicted vector is
elementwise equal to the one-hot row of the true label; any other prediction
— including an argmax-equal but not elementwise-equal one — contributes
nothing. -/
theorem c1_dense_exact_match (num_classes : Nat) (f : List ℚ → List ℚ)
    (v_features : List (List ℚ)) (v_labels : List Nat)
    (x : List ℚ) (y : Nat) (h : v_features.length = v_labels.length) :
    score_count num_classes (Clf.dense f) (v_features ++ [x]) (v_labels ++ [y]) =
      score_count num_classes (Clf.dense f) v_features v_labels +
        (if f x = eye_row num_classes y then 1 else 0) := by
  unfold score_count
  rw [List.zip_append h, List.countP_append]
  simp [List.countP_cons]

/-- C3 counterexample: a dense stub whose output `[0, 1, 1, 0]` has two
1-valued positions is not rejected with MalformedPrediction — contrary to the
claim — because `.index(1)` of the source returns the first 1-valued
position, so `make_prediction` answers "B" over the vocabulary
[A, B, C, D]. -/
theorem c3_multiple_ones_counterexample :
    make_prediction (Clf.dense (fun _ => [0, 1, 1, 0])) ["A", "B", "C", "D"]
      sample_codec "good.mid" = Except.ok "B" := by
  rfl

/-- C3 (amended): for a dense model output, `make_prediction` locates the
first 1-valued position — failing with MalformedPrediction exactly when no
position is 1, and never failing merely because several positions are 1 —
and maps that index through the vocabulary to a genre string. -/
theorem c3_first_one_decoded (f : List ℚ → List ℚ) (label_list : List String)
    (codec : Codec) (path : String) (features : List ℚ)
    (hf : get_features codec path = some features) :
    (index_of_one (f features) = none ↔ (1 : ℚ) ∉ f features) ∧
    (index_of_one (f features) = none →
      make_prediction (Clf.dense f) label_list codec path =
        Except.error PredictionError.malformedPrediction) ∧
    (∀ i genre, index_of_one (f features) = some i →
      label_list.get? i = some genre →
      make_prediction (Clf.dense f) label_list codec path = Except.ok genre) ∧
    (∀ i, index_of_one (f features) = some i →
      (f features).get? i = some 1 ∧ ∀ j, j < i → (f features).get? j ≠ some 1) := by
  refine ⟨index_of_one_eq_none (f features), ?_, ?_, ?_⟩
  · intro hnone
    simp [make_prediction, hf, hnone]
  · intro i genre hi hgenre
    rw [List.get?_eq_getElem?] at hgenre
    simp [make_prediction, hf, hi, hgenre]
  · intro i hi
    exact index_of_one_spec (f features) i hi

/-- C3 witness: the stub one-hot output `[0, 0, 1, 0]` over the vocabulary
[A, B, C, D] decodes to "C". -/
theorem c3_first_one_decoded_witness :
    make_prediction (Clf.dense (fun _ => [0, 0, 1, 0])) ["A", "B", "C", "D"]
      sample_codec "good.mid" = Except.ok "C" :=
  (c3_first_one_decoded (fun _ => [0, 0, 1, 0]) ["A", "B", "C", "D"]
    sample_codec "good.mid" (features_of_midi sample_midi) rfl).2.2.1 2 "C" rfl rfl

/-- C2 counterexample: one candidate whose validation accuracy is exactly 0 —
its training succeeded and it has the (weakly) highest accuracy of the
supplied list — yet `train_model` returns no model at all instead of that
first-seen maximal candidate, because the tracker starts at accuracy 0 and
only moves on a strict improvement. -/
theorem c2_zero_accuracy_counterexample :
    train_model 2 [cex_clf] [] [] [[0]] [0] = ((none : Option Clf), (0 : ℚ)) ∧
    (train_model 2 [cex_clf] [] [] [[0]] [0]).1 ≠ some cex_clf := by
  have hacc : validation_accuracy 2 cex_clf [[0]] [0] = 0 := by
    rw [validation_accuracy_eq,
      show score_count 2 cex_clf [[0]] [0] = 0 from by decide]
    norm_num
  have h : train_model 2 [cex_clf] [] [] [[0]] [0] = ((none : Option Clf), (0 : ℚ)) := by
    simp [train_model, select_step, hacc]
  exact ⟨h, by rw [h]; simp⟩

/-- C2 (amended): whenever some candidate attains a strictly positive
validation accuracy that every earlier candidate stays strictly below and no
later candidate exceeds, `train_model` returns exactly that first-seen
maximal candidate together with its accuracy; when every accuracy is 0 the
tracker keeps its initial (None, 0) instead. -/
theorem c2_first_max_selected (num_classes : Nat) (before : List Clf) (c : Clf)
    (after : List Clf) (t_features : List (List ℚ)) (t_labels : List Nat)
    (v_features : List (List ℚ)) (v_labels : List Nat)
    (hpos : 0 < validation_accuracy num_classes c v_features v_labels)
    (hbefore : ∀ x ∈ before, validation_accuracy num_classes x v_features v_labels <
      validation_accuracy num_classes c v_features v_labels)
    (hafter : ∀ x ∈ after, validation_accuracy num_classes x v_features v_labels ≤
      validation_accuracy num_classes c v_features v_labels) :
    train_model num_classes (before ++ c :: after) t_features t_labels
        v_features v_labels =
      (some c, validation_accuracy num_classes c v_features v_labels) := by
  unfold train_model
  rw [List.foldl_append, List.foldl_cons]
  have h1 : (before.foldl
      (select_step (fun clf => validation_accuracy num_classes clf v_features v_labels))
      (none, 0)).2 < validation_accuracy num_classes c v_features v_labels :=
    foldl_select_step_lt _ before (none, 0) _ hpos hbefore
  rw [select_step_of_lt _ _ c h1]
  exact foldl_select_step_of_le _ after _ hafter

/-- C2 witness: over a two-example validation set, candidates with accuracies
1/2, 1, 1 in that order: the middle candidate is the first to attain the
maximum and is returned with accuracy 1, the later tying candidate is not. -/
theorem c2_first_max_selected_witness :
    train_model 2 [clf_half, clf_best, clf_tie] [] [] [[0], [1]] [0, 1] =
      (some clf_best, validation_accuracy 2 clf_best [[0], [1]] [0, 1]) :=
  have hh : validation_accuracy 2 clf_half [[0], [1]] [0, 1] = 1 / 2 := by
    rw [validation_accuracy_eq,
      show score_count 2 clf_half [[0], [1]] [0, 1] = 1 from by decide]
    norm_num
  have hb : validation_accuracy 2 clf_best [[0], [1]] [0, 1] = 1 := by
    rw [validation_accuracy_eq,
      show score_count 2 clf_best [[0], [1]] [0, 1] = 2 from by decide]
    norm_num
  have ht : validation_accuracy 2 clf_tie [[0], [1]] [0, 1] = 1 := by
    rw [validation_accuracy_eq,
      show score_count 2 clf_tie [[0], [1]] [0, 1] = 2 from by decide]
    norm_num
  c2_first_max_selected 2 [clf_half] clf_best [clf_tie] [] [] [[0], [1]] [0, 1]
    (by rw [hb]; norm_num)
    (by
      intro x hx
      rw [List.mem_singleton] at hx
      subst hx
      rw [hh, hb]
      norm_num)
    (by
      intro x hx
      rw [List.mem_singleton] at hx
      subst hx
      rw [ht, hb])

/-- C10: when every candidate scores validation accuracy exactly 0,
`train_model` returns no model at all — the (None, 0) initialization of the
best-so-far tracker survives because updates require a strictly greater
accuracy. -/
theorem c10_all_zero_returns_none (num_classes : Nat) (candidates : List Clf)
    (t_features : List (List ℚ)) (t_labels : List Nat)
    (v_features : List (List ℚ)) (v_labels : List Nat)
    (_hne : v_labels ≠ [])
    (hzero : ∀ clf ∈ candidates,
      validation_accuracy num_classes clf v_features v_labels = 0) :
    train_model num_classes candidates t_features t_labels v_features v_labels =
      ((none : Option Clf), (0 : ℚ)) := by
  unfold train_model
  exact foldl_select_step_of_le _ candidates (none, 0)
    (fun x hx => le_of_eq (hzero x hx))

/-- C10 witness: a single always-wrong candidate on a one-example validation
set scores 0 and `train_model` returns (None, 0). -/
theorem c10_all_zero_returns_none_witness :
    train_model 2 [cex_clf] [] [] [[0]] [0] = ((none : Option Clf), (0 : ℚ)) :=
  c10_all_zero_returns_none 2 [cex_clf] [] [] [[0]] [0] (by simp)
    (by
      intro clf hclf
      rw [List.mem_singleton] at hclf
      subst hclf
      rw [validation_accuracy_eq,
        show score_count 2 cex_clf [[0]] [0] = 0 from by decide]
      norm_num)

/-- C1 witness: a prediction vector [0, 2, 1] whose argmax matches the true
label 1 but which is not the one-hot row [0, 1, 0] is counted wrong: the
correct count of the single-example set stays 0. -/
theorem c1_dense_exact_match_witness :
    score_count 3 (Clf.dense (fun _ => ([0, 2, 1] : List ℚ)))
      ([] ++ [[0]]) ([] ++ [1]) = 0 := by
  rw [c1_dense_exact_match 3 (fun _ => ([0, 2, 1] : List ℚ)) [] [] [0] 1 rfl]
  decide

/-- C5 witness: the sample decoded file (tempo 120, resolution 220, first
time-signature change 3/4) extracts to the 4-component vector
[-1/10, -1/10, 0, 1/8]. -/
theorem c5_feature_vector_witness :
    get_features sample_codec "good.mid" = some [-1/10, -1/10, 0, 1/8] := by
  rw [(c5_feature_vector sample_codec "good.mid" sample_midi rfl).1]
  norm_num [features_of_midi, normalize_features, sample_midi]

/-- C6 witness: a 3-row input whose middle file fails to decode yields the
2-row labeled matrix of the other rows, in order. -/
theorem c6_build_drops_failures_witness :
    extract_midi_features sample_codec sample_label_dict
      [("a.mid", "Jazz"), ("bad.mid", "Rap"), ("b.mid", "Pop_Rock")] =
      [features_of_midi sample_midi ++ [(sample_label_dict "Jazz" : ℚ)],
       features_of_midi sample_midi ++ [(sample_label_dict "Pop_Rock" : ℚ)]] :=
  (c6_build_drops_failures sample_codec sample_label_dict).2
    "a.mid" "Jazz" "bad.mid" "Rap" "b.mid" "Pop_Rock"
    (features_of_midi sample_midi) (features_of_midi sample_midi) rfl rfl rfl

/-- C7 witness: on a concrete one-example test set the two accuracy
computations coincide. -/
theorem c7_accuracy_agreement_witness :
    calculate_accuracy 2 (Clf.scalar (fun _ => 0)) [[0]] [0] =
      validation_accuracy 2 (Clf.scalar (fun _ => 0)) [[0]] [0] :=
  c7_accuracy_agreement 2 (Clf.scalar (fun _ => 0)) [[0]] [0] rfl

/-- C8 witness: on the undecodable path, prediction surfaces the decode
failure. -/
theorem c8_decode_failure_surfaced_witness :
    make_prediction (Clf.dense (fun _ => [1])) ["A"] sample_codec "bad.mid" =
      Except.error PredictionError.decodeFailure :=
  (c8_decode_failure_surfaced (Clf.dense (fun _ => [1])) ["A"]
    sample_codec "bad.mid" rfl).1

/-- C9 witness: the codec error on "bad.mid" is converted into `none`. -/
theorem c9_get_features_total_witness :
    get_features sample_codec "bad.mid" = none :=
  (c9_get_features_total sample_codec "bad.mid").2.2
    DecodeError.truncatedStream rfl
